import Mathlib

/-!
Verification of the workflow engine of the project-management backend
(`app/repositories/workflow_repository.py` and `app/api/workflows.py`).

Python dictionaries with string keys are modelled as association lists
`List (String × V)` over an arbitrary value type `V` with decidable
equality (the code only ever uses `in`, `[]`, `!=` and `.update` on the
values, so every theorem below holds uniformly in `V`).  The record
store is modelled as a list of rows; the SQL `ORDER BY created_at DESC`
of the repository queries is modelled by sorting on the `created_at`
field with the reversed order.
-/

/-- A Python `Dict[str, Any]` as an association list (keys are unique in
an actual dict; lookups take the first binding, which agrees with dict
semantics on key-unique lists). -/
abbrev Dict (V : Type) : Type := List (String × V)

/-- Dictionary lookup: `d[k]` / `k in d`. -/
def lookupKey {V : Type} (k : String) : Dict V → Option V
  | [] => none
  | (k', v) :: rest => if k' = k then some v else lookupKey k rest

/-- Python `base.update(upd)`: existing keys keep their position and take
the value from `upd` when present; keys of `upd` absent from `base` are
appended in `upd` order. -/
def dictUpdate {V : Type} (base upd : Dict V) : Dict V :=
  base.map (fun p => match lookupKey p.1 upd with
    | some v => (p.1, v)
    | none => p) ++
  upd.filter (fun p => (lookupKey p.1 base).isNone)

theorem lookupKey_append {V : Type} (k : String) (l₁ l₂ : Dict V) :
    lookupKey k (l₁ ++ l₂) =
      match lookupKey k l₁ with
      | some v => some v
      | none => lookupKey k l₂ := by
  induction l₁ with
  | nil => simp [lookupKey]
  | cons p rest ih =>
    obtain ⟨k', v⟩ := p
    by_cases h : k' = k <;> simp [lookupKey, h, ih]

theorem lookupKey_map_update {V : Type} (k : String) (base upd : Dict V) :
    lookupKey k (base.map (fun p => match lookupKey p.1 upd with
        | some v => (p.1, v)
        | none => p)) =
      match lookupKey k base with
      | some v => some ((lookupKey k upd).getD v)
      | none => none := by
  induction base with
  | nil => simp [lookupKey]
  | cons p rest ih =>
    obtain ⟨k', v⟩ := p
    by_cases h : k' = k
    · subst h
      cases hu : lookupKey k' upd <;> simp [lookupKey, hu]
    · cases hu : lookupKey k' upd <;> simp [lookupKey, h, hu, ih]

theorem lookupKey_filter_of_not_mem {V : Type} (k : String) (base upd : Dict V)
    (hk : lookupKey k base = none) :
    lookupKey k (upd.filter (fun p => (lookupKey p.1 base).isNone)) =
      lookupKey k upd := by
  induction upd with
  | nil => rfl
  | cons p rest ih =>
    obtain ⟨k', v⟩ := p
    by_cases h : k' = k
    · subst h
      simp [List.filter, hk, lookupKey, ih]
    · cases hb : (lookupKey k' base).isNone <;>
        simp [List.filter, hb, lookupKey, h, ih]

/-- The fundamental property of `dictUpdate`: a key bound in `upd` takes
its `upd` value, every other key keeps its `base` value. -/
theorem lookupKey_dictUpdate {V : Type} (k : String) (base upd : Dict V) :
    lookupKey k (dictUpdate base upd) =
      match lookupKey k upd with
      | some v => some v
      | none => lookupKey k base := by
  rw [dictUpdate, lookupKey_append, lookupKey_map_update]
  cases hb : lookupKey k base with
  | some v =>
    cases hu : lookupKey k upd <;> simp [hu]
  | none =>
    rw [lookupKey_filter_of_not_mem k base upd hb]
    cases hu : lookupKey k upd <;> simp [hu]

/-! ### Business rules (`BusinessRuleRepository`) -/

/-- A row of the `business_rules` table (`app/models/workflow.py`,
class `BusinessRule`).  Timestamps are abstract `Nat` instants. -/
structure BusinessRule (V : Type) where
  id : Nat
  name : String
  description : Option String
  rule_type : String
  conditions : Dict V
  actions : Dict V
  is_active : Bool
  created_at : Nat
  deriving DecidableEq, Repr

/-- One element of the list returned by
`BusinessRuleRepository.evaluate_rules`. -/
structure TriggeredRule (V : Type) where
  rule_id : Nat
  rule_name : String
  rule_type : String
  actions : Dict V
  deriving DecidableEq, Repr

/-- `BusinessRuleRepository.get_active_rules`: active rules ordered by
creation time descending. -/
def get_active_rules {V : Type} (db : List (BusinessRule V)) :
    List (BusinessRule V) :=
  List.insertionSort (fun a b => b.created_at ≤ a.created_at)
    (db.filter (fun r => r.is_active))

/-- `BusinessRuleRepository._evaluate_conditions`: for each
`(key, expected_value)` of `conditions`, the key must be in `context`
and `context[key]` must equal `expected_value`; otherwise `False`. -/
def evaluate_conditions {V : Type} [DecidableEq V]
    (conditions context : Dict V) : Bool :=
  conditions.all (fun p =>
    match lookupKey p.1 context with
    | none => false
    | some v => decide (v = p.2))

/-- `BusinessRuleRepository.evaluate_rules`: collect
`{rule_id, rule_name, rule_type, actions}` for each active rule whose
conditions hold in `context` (the loop-with-append is the
filter-then-map of the active listing). -/
def evaluate_rules {V : Type} [DecidableEq V]
    (db : List (BusinessRule V)) (context : Dict V) :
    List (TriggeredRule V) :=
  ((get_active_rules db).filter
      (fun rule => evaluate_conditions rule.conditions context)).map
    (fun rule =>
      { rule_id := rule.id
        rule_name := rule.name
        rule_type := rule.rule_type
        actions := rule.actions })

/-- Claim C1: rule-condition matching is a strict AND-of-equalities:
`_evaluate_conditions conditions context` is `True` iff every key of
`conditions` is present in `context` with an exactly equal value; in
particular an empty `conditions` dict matches every context. -/
theorem evaluate_conditions_iff_all_eq {V : Type} [DecidableEq V]
    (conditions context : Dict V) :
    (evaluate_conditions conditions context = true ↔
      ∀ p ∈ conditions, lookupKey p.1 context = some p.2)
    ∧ evaluate_conditions ([] : Dict V) context = true := by
  refine ⟨?_, rfl⟩
  rw [evaluate_conditions, List.all_eq_true]
  constructor
  · intro h p hp
    have hh := h p hp
    cases hl : lookupKey p.1 context with
    | none => rw [hl] at hh; simp at hh
    | some v =>
      rw [hl] at hh
      exact congrArg some (of_decide_eq_true hh)
  · intro h p hp
    rw [h p hp]
    simp

/-- Concrete instantiation of C1: a matching condition set is accepted,
a value mismatch is rejected. -/
theorem evaluate_conditions_iff_all_eq_witness :
    evaluate_conditions [("status", (0 : Int))] [("status", 0), ("extra", 1)]
      = true :=
  (evaluate_conditions_iff_all_eq _ _).1.mpr (by decide)

/-- Claim C3: `evaluate_rules db context` is the image of exactly the
active rules whose conditions match the context, listed in descending
creation-time order; inactive rules never contribute an entry. -/
theorem evaluate_rules_exact {V : Type} [DecidableEq V]
    (db : List (BusinessRule V)) (context : Dict V) :
    ∃ rs : List (BusinessRule V),
      evaluate_rules db context = rs.map (fun r =>
        { rule_id := r.id
          rule_name := r.name
          rule_type := r.rule_type
          actions := r.actions : TriggeredRule V })
      ∧ (∀ r, r ∈ rs ↔ (r ∈ db ∧ r.is_active = true ∧
          evaluate_conditions r.conditions context = true))
      ∧ rs.Pairwise (fun a b => b.created_at ≤ a.created_at) := by
  refine ⟨(get_active_rules db).filter
      (fun rule => evaluate_conditions rule.conditions context),
    rfl, ?_, ?_⟩
  · intro r
    simp [get_active_rules, List.mem_filter, List.mem_insertionSort,
      and_assoc]
  · apply List.Pairwise.filter
    haveI : IsTotal (BusinessRule V) (fun a b => b.created_at ≤ a.created_at) :=
      ⟨fun a b => Nat.le_total b.created_at a.created_at⟩
    haveI : IsTrans (BusinessRule V) (fun a b => b.created_at ≤ a.created_at) :=
      ⟨fun _ _ _ h₁ h₂ => Nat.le_trans h₂ h₁⟩
    exact List.sorted_insertionSort _ _

/-- A rule used by the C3 witness: active and unconditionally matching. -/
def sampleActiveRule : BusinessRule Int :=
  { id := 1, name := "r1", description := none, rule_type := "automation"
    conditions := [], actions := [("notify", 1)], is_active := true
    created_at := 5 }

/-- A rule used by the C3 witness: matching conditions but inactive. -/
def sampleInactiveRule : BusinessRule Int :=
  { id := 2, name := "r2", description := none, rule_type := "automation"
    conditions := [], actions := [("notify", 2)], is_active := false
    created_at := 9 }

/-- Concrete instantiation of C3: over a store holding one active and
one inactive rule, both with vacuously matching conditions, evaluation
returns exactly the entry of the active rule, and the characterization
theorem holds at that store. -/
theorem evaluate_rules_exact_witness :
    evaluate_rules [sampleActiveRule, sampleInactiveRule] ([] : Dict Int)
      = [{ rule_id := 1, rule_name := "r1", rule_type := "automation"
           actions := [("notify", 1)] }]
    ∧ ∃ rs : List (BusinessRule Int),
      evaluate_rules [sampleActiveRule, sampleInactiveRule] ([] : Dict Int)
          = rs.map (fun r =>
            { rule_id := r.id
              rule_name := r.name
              rule_type := r.rule_type
              actions := r.actions : TriggeredRule Int })
        ∧ (∀ r, r ∈ rs ↔ (r ∈ [sampleActiveRule, sampleInactiveRule] ∧
            r.is_active = true ∧
            evaluate_conditions r.conditions ([] : Dict Int) = true))
        ∧ rs.Pairwise (fun a b => b.created_at ≤ a.created_at) :=
  ⟨rfl, evaluate_rules_exact [sampleActiveRule, sampleInactiveRule] []⟩

/-! ### Workflow instances (`WorkflowInstanceRepository`) -/

/-- A transition record as built by
`WorkflowInstanceRepository.transition_stage` (value type stored inside
`WorkflowInstance.history`). -/
structure TransitionRecord (V : Type) where
  from_stage : String
  to_stage : String
  timestamp : Nat
  triggered_by : Option Nat
  data : Dict V
  deriving DecidableEq, Repr

/-- A row of the `workflow_instances` table (`app/models/workflow.py`,
class `WorkflowInstance`).  `stage_data` and `history` are nullable JSON
columns, hence `Option`. -/
structure WorkflowInstance (V : Type) where
  id : Nat
  workflow_id : Nat
  project_id : Nat
  current_stage : String
  stage_data : Option (Dict V)
  history : Option (List (TransitionRecord V))
  is_completed : Bool
  created_at : Nat
  updated_at : Nat
  deriving DecidableEq, Repr

/-- `WorkflowInstanceRepository.get`: first row with the given id (the
relationship loading options do not change which row is returned). -/
def wi_get {V : Type} (db : List (WorkflowInstance V)) (id : Nat) :
    Option (WorkflowInstance V) :=
  db.find? (fun i => i.id == id)

/-- The transition record built by `transition_stage`; Python
`transition_data or {}` sends both `None` and the empty dict to the
empty dict, which `Option.getD` with default `[]` captures. -/
def mkTransitionRecord {V : Type} (inst : WorkflowInstance V)
    (to_stage : String) (transition_data : Option (Dict V))
    (triggered_by : Option Nat) (now : Nat) : TransitionRecord V :=
  { from_stage := inst.current_stage
    to_stage := to_stage
    timestamp := now
    triggered_by := triggered_by
    data := transition_data.getD [] }

/-- The in-memory mutation `transition_stage` performs on the fetched
instance: append the record to `history or []`, shallow-merge non-empty
`transition_data` into `stage_data or ` the empty dict, set
`current_stage`, refresh `updated_at`. -/
def applyTransition {V : Type} (inst : WorkflowInstance V)
    (to_stage : String) (transition_data : Option (Dict V))
    (triggered_by : Option Nat) (now : Nat) : WorkflowInstance V :=
  let record := mkTransitionRecord inst to_stage transition_data triggered_by now
  { inst with
    history := some (inst.history.getD [] ++ [record])
    stage_data :=
      match transition_data with
      | some td =>
          if td.isEmpty then inst.stage_data
          else some (dictUpdate (inst.stage_data.getD []) td)
      | none => inst.stage_data
    current_stage := to_stage
    updated_at := now }

/-- `WorkflowInstanceRepository.transition_stage`: fetch the instance by
id (raising `ValueError` when absent, modelled as `Except.error`),
mutate it, write it back, and return the refreshed row together with
the updated table. -/
def transition_stage {V : Type} (db : List (WorkflowInstance V))
    (instance_id : Nat) (new_stage : String)
    (transition_data : Option (Dict V)) (triggered_by : Option Nat)
    (now : Nat) :
    Except String (WorkflowInstance V × List (WorkflowInstance V)) :=
  match wi_get db instance_id with
  | none => .error "Workflow instance not found"
  | some inst =>
      let inst' := applyTransition inst new_stage transition_data triggered_by now
      .ok (inst', db.map (fun i => if i.id == instance_id then inst' else i))

/-- Error taxonomy of the HTTP layer: 404, 400, and an unhandled
exception (500). -/
inductive ApiError where
  | notFound (detail : String)
  | badRequest (detail : String)
  | serverError (detail : String)
  deriving DecidableEq, Repr

/-- Request body of the stage-transition endpoint
(`schemas/workflow.py`, class `WorkflowStageTransition`). -/
structure WorkflowStageTransition (V : Type) where
  from_stage : String
  to_stage : String
  transition_data : Option (Dict V)
  notes : Option String
  triggered_by : Option Nat
  deriving DecidableEq, Repr

/-- The transition endpoint `transition_workflow_stage` of
`app/api/workflows.py`: 404 when the instance does not exist, otherwise
delegate to the repository with the `to_stage` and `transition_data` of
the request and the current user as `triggered_by`; the `from_stage`,
`notes` and `triggered_by` fields of the request are never read. -/
def transition_workflow_stage {V : Type} (db : List (WorkflowInstance V))
    (instance_id : Nat) (t : WorkflowStageTransition V)
    (current_user_id : Nat) (now : Nat) :
    Except ApiError (WorkflowInstance V × List (WorkflowInstance V)) :=
  match wi_get db instance_id with
  | none => .error (.notFound "Workflow instance not found")
  | some _ =>
      match transition_stage db instance_id t.to_stage t.transition_data
          (some current_user_id) now with
      | .error e => .error (.serverError e)
      | .ok r => .ok r

/-- One call of a transition sequence: target stage, optional data,
optional actor, clock reading. -/
structure TransitionCmd (V : Type) where
  to_stage : String
  transition_data : Option (Dict V)
  triggered_by : Option Nat
  now : Nat
  deriving DecidableEq, Repr

/-- Apply a sequence of `transition_stage` mutations to one instance. -/
def runTransitions {V : Type} (inst : WorkflowInstance V)
    (cmds : List (TransitionCmd V)) : WorkflowInstance V :=
  cmds.foldl
    (fun i c => applyTransition i c.to_stage c.transition_data c.triggered_by c.now)
    inst

/-- The instance history as a plain list (`instance.history or []`). -/
def historyOf {V : Type} (inst : WorkflowInstance V) :
    List (TransitionRecord V) :=
  inst.history.getD []

/-- The records a sequence of transitions generates, each built from the
instance state reached before it. -/
def transitionRecords {V : Type} (inst : WorkflowInstance V) :
    List (TransitionCmd V) → List (TransitionRecord V)
  | [] => []
  | c :: cs =>
      mkTransitionRecord inst c.to_stage c.transition_data c.triggered_by c.now ::
        transitionRecords
          (applyTransition inst c.to_stage c.transition_data c.triggered_by c.now)
          cs

theorem historyOf_applyTransition {V : Type} (inst : WorkflowInstance V)
    (s : String) (td : Option (Dict V)) (tb : Option Nat) (now : Nat) :
    historyOf (applyTransition inst s td tb now) =
      historyOf inst ++ [mkTransitionRecord inst s td tb now] := rfl

theorem historyOf_runTransitions {V : Type} (inst : WorkflowInstance V)
    (cmds : List (TransitionCmd V)) :
    historyOf (runTransitions inst cmds) =
      historyOf inst ++ transitionRecords inst cmds := by
  induction cmds generalizing inst with
  | nil => simp [runTransitions, transitionRecords]
  | cons c cs ih =>
    rw [runTransitions, List.foldl_cons, ← runTransitions, ih,
      historyOf_applyTransition, transitionRecords, List.append_assoc,
      List.singleton_append]

theorem length_transitionRecords {V : Type} (inst : WorkflowInstance V)
    (cmds : List (TransitionCmd V)) :
    (transitionRecords inst cmds).length = cmds.length := by
  induction cmds generalizing inst with
  | nil => rfl
  | cons c cs ih => rw [transitionRecords, List.length_cons, ih, List.length_cons]

theorem transitionRecords_getElem {V : Type} (inst : WorkflowInstance V)
    (cmds : List (TransitionCmd V)) (i : Nat) (hi : i < cmds.length) :
    (transitionRecords inst cmds)[i]? =
      some (mkTransitionRecord (runTransitions inst (cmds.take i))
        (cmds.get ⟨i, hi⟩).to_stage (cmds.get ⟨i, hi⟩).transition_data
        (cmds.get ⟨i, hi⟩).triggered_by (cmds.get ⟨i, hi⟩).now) := by
  induction cmds generalizing inst i with
  | nil => cases hi
  | cons c cs ih =>
    cases i with
    | zero =>
      rw [transitionRecords, List.getElem?_cons_zero]
      rfl
    | succ j =>
      have hj : j < cs.length := Nat.lt_of_succ_lt_succ hi
      rw [transitionRecords, List.getElem?_cons_succ, ih _ j hj]
      rfl

/-- A successful `transition_stage` returns exactly the mutated fetched
instance. -/
theorem transition_stage_ok_eq {V : Type} (db : List (WorkflowInstance V))
    (instance_id : Nat) (new_stage : String) (td : Option (Dict V))
    (tb : Option Nat) (now : Nat) (inst inst' : WorkflowInstance V)
    (db' : List (WorkflowInstance V))
    (hfind : wi_get db instance_id = some inst)
    (hok : transition_stage db instance_id new_stage td tb now
      = .ok (inst', db')) :
    inst' = applyTransition inst new_stage td tb now := by
  unfold transition_stage at hok
  rw [hfind] at hok
  injection hok with h
  injection h with h1 h2
  exact h1.symm

/-- Claim C2: a successful `transition_stage` call appends exactly one
record to the history — no prior entry is removed, altered or reordered
— whose `from_stage` is the pre-call `current_stage`, whose `to_stage`
is the requested stage and whose `data` is the supplied
`transition_data` (the empty dict when absent); over any sequence of N
transitions the history grows by exactly N and record i is built from
the instance state reached immediately before transition i. -/
theorem transition_history_append_only {V : Type}
    (db : List (WorkflowInstance V)) (instance_id : Nat) (new_stage : String)
    (td : Option (Dict V)) (tb : Option Nat) (now : Nat)
    (inst inst' : WorkflowInstance V) (db' : List (WorkflowInstance V))
    (hfind : wi_get db instance_id = some inst)
    (hok : transition_stage db instance_id new_stage td tb now
      = .ok (inst', db'))
    (inst₀ : WorkflowInstance V) (cmds : List (TransitionCmd V)) :
    historyOf inst' = historyOf inst ++
        [{ from_stage := inst.current_stage
           to_stage := new_stage
           timestamp := now
           triggered_by := tb
           data := td.getD [] }]
    ∧ (historyOf (runTransitions inst₀ cmds)).length
        = (historyOf inst₀).length + cmds.length
    ∧ ∀ i, ∀ hi : i < cmds.length,
        ∃ rec : TransitionRecord V,
          (historyOf (runTransitions inst₀ cmds))[(historyOf inst₀).length + i]?
              = some rec
          ∧ rec.from_stage = (runTransitions inst₀ (cmds.take i)).current_stage
          ∧ rec.to_stage = (cmds.get ⟨i, hi⟩).to_stage
          ∧ rec.data = ((cmds.get ⟨i, hi⟩).transition_data).getD [] := by
  refine ⟨?_, ?_, ?_⟩
  · rw [transition_stage_ok_eq db instance_id new_stage td tb now inst inst' db'
      hfind hok]
    exact historyOf_applyTransition inst new_stage td tb now
  · rw [historyOf_runTransitions, List.length_append, length_transitionRecords]
  · intro i hi
    refine ⟨mkTransitionRecord (runTransitions inst₀ (cmds.take i))
        (cmds.get ⟨i, hi⟩).to_stage (cmds.get ⟨i, hi⟩).transition_data
        (cmds.get ⟨i, hi⟩).triggered_by (cmds.get ⟨i, hi⟩).now,
      ?_, rfl, rfl, rfl⟩
    rw [historyOf_runTransitions,
      List.getElem?_append_right (Nat.le_add_right _ i),
      Nat.add_sub_cancel_left]
    exact transitionRecords_getElem inst₀ cmds i hi

/-- Instance used by the witnesses: stage `lead`, one stage-data key. -/
def sampleInstance : WorkflowInstance Int :=
  { id := 1, workflow_id := 1, project_id := 1, current_stage := "lead"
    stage_data := some [("b", 2)], history := none, is_completed := false
    created_at := 0, updated_at := 0 }

/-- Concrete instantiation of C2: transitioning the sample instance once
appends exactly the expected record to its (empty) history. -/
theorem transition_history_append_only_witness :
    historyOf (applyTransition sampleInstance "closed_won"
        (some [("amount", 5000)]) (some 7) 3)
      = historyOf sampleInstance ++
        [{ from_stage := "lead", to_stage := "closed_won", timestamp := 3
           triggered_by := some 7, data := [("amount", 5000)] }] :=
  (transition_history_append_only [sampleInstance] 1 "closed_won"
    (some [("amount", 5000)]) (some 7) 3 sampleInstance _ _ rfl rfl
    sampleInstance []).1

/-- Claim C4: a successful `transition_stage` with non-empty
`transition_data` shallow-merges it into `stage_data` — keys of the
transition data win, every other prior binding is preserved — and with
absent or empty `transition_data` the stage data is left unchanged. -/
theorem transition_stage_data_merge {V : Type}
    (db : List (WorkflowInstance V)) (instance_id : Nat) (new_stage : String)
    (td : Option (Dict V)) (tb : Option Nat) (now : Nat)
    (inst inst' : WorkflowInstance V) (db' : List (WorkflowInstance V))
    (hfind : wi_get db instance_id = some inst)
    (hok : transition_stage db instance_id new_stage td tb now
      = .ok (inst', db')) :
    (∀ d, td = some d → d ≠ [] →
      ∀ k, lookupKey k (inst'.stage_data.getD []) =
        match lookupKey k d with
        | some v => some v
        | none => lookupKey k (inst.stage_data.getD []))
    ∧ (td = none → inst'.stage_data = inst.stage_data)
    ∧ (td = some [] → inst'.stage_data = inst.stage_data) := by
  have he := transition_stage_ok_eq db instance_id new_stage td tb now
    inst inst' db' hfind hok
  subst he
  refine ⟨?_, ?_, ?_⟩
  · rintro d rfl hne k
    have hd : d.isEmpty = false := by
      cases d with
      | nil => exact absurd rfl hne
      | cons p rest => rfl
    show lookupKey k ((if d.isEmpty then inst.stage_data
        else some (dictUpdate (inst.stage_data.getD []) d)).getD []) = _
    rw [hd]
    simp only [Bool.false_eq_true, if_false, Option.getD_some]
    exact lookupKey_dictUpdate k (inst.stage_data.getD []) d
  · rintro rfl
    rfl
  · rintro rfl
    rfl

/-- Concrete instantiation of C4: merging `a = 1` into prior stage data
`b = 2` keeps the prior binding of `b`. -/
theorem transition_stage_data_merge_witness :
    lookupKey "b" ((applyTransition sampleInstance "x" (some [("a", 1)])
        none 4).stage_data.getD []) = some 2 := by
  have h := (transition_stage_data_merge [sampleInstance] 1 "x"
      (some [("a", (1 : Int))]) none 4 sampleInstance _ _ rfl rfl).1
    [("a", 1)] rfl (by decide) "b"
  rw [h]
  rfl

/-- Claim C5: the transition endpoint is unconditional with respect to
stage policy: for every existing instance and every target stage string
the call succeeds and sets `current_stage` to it — no transition graph,
no membership in the declared stages of the parent workflow (the operation
never consults any workflow row), and the `from_stage` of the request is
never compared to the actual current stage (the result is invariant
under changing it). -/
theorem transition_unconditional {V : Type}
    (db : List (WorkflowInstance V)) (instance_id : Nat)
    (inst : WorkflowInstance V) (hfind : wi_get db instance_id = some inst)
    (t : WorkflowStageTransition V) (uid now : Nat) (s₁ s₂ : String) :
    (∃ inst' db',
      transition_workflow_stage db instance_id t uid now = .ok (inst', db')
      ∧ inst'.current_stage = t.to_stage)
    ∧ transition_workflow_stage db instance_id
        { t with from_stage := s₁ } uid now
      = transition_workflow_stage db instance_id
        { t with from_stage := s₂ } uid now := by
  constructor
  · refine ⟨applyTransition inst t.to_stage t.transition_data (some uid) now,
      db.map (fun i => if i.id == instance_id then
        applyTransition inst t.to_stage t.transition_data (some uid) now
        else i), ?_, rfl⟩
    unfold transition_workflow_stage transition_stage
    rw [hfind]
  · rfl

/-- Request used by the C5 witness: its `from_stage` does not match the
actual stage of the sample instance and its target names no declared
stage. -/
def sampleRequest : WorkflowStageTransition Int :=
  { from_stage := "wrong", to_stage := "no_such_stage"
    transition_data := none, notes := none, triggered_by := some 99 }

/-- Concrete instantiation of C5: the endpoint accepts a transition to
an undeclared stage with an unverified `from_stage`. -/
theorem transition_unconditional_witness :
    ∃ inst' db',
      transition_workflow_stage [sampleInstance] 1 sampleRequest 7 3
        = .ok (inst', db')
      ∧ inst'.current_stage = "no_such_stage" :=
  (transition_unconditional [sampleInstance] 1 sampleInstance rfl
    sampleRequest 7 3 "a" "b").1

/-- Claim C10: a successful `transition_stage` changes only
`current_stage`, `stage_data`, `history` and `updated_at`: the
fields `id`, `workflow_id`, `project_id`, `is_completed` and
`created_at` are unchanged — in particular no transition ever marks an
instance completed, whatever the target stage. -/
theorem transition_preserves_identity_fields {V : Type}
    (db : List (WorkflowInstance V)) (instance_id : Nat) (new_stage : String)
    (td : Option (Dict V)) (tb : Option Nat) (now : Nat)
    (inst inst' : WorkflowInstance V) (db' : List (WorkflowInstance V))
    (hfind : wi_get db instance_id = some inst)
    (hok : transition_stage db instance_id new_stage td tb now
      = .ok (inst', db')) :
    inst'.id = inst.id ∧ inst'.workflow_id = inst.workflow_id
    ∧ inst'.project_id = inst.project_id
    ∧ inst'.is_completed = inst.is_completed
    ∧ inst'.created_at = inst.created_at := by
  have he := transition_stage_ok_eq db instance_id new_stage td tb now
    inst inst' db' hfind hok
  subst he
  exact ⟨rfl, rfl, rfl, rfl, rfl⟩

/-- Concrete instantiation of C10: transitioning the sample instance to
stage `closed` leaves it uncompleted with its original identifiers. -/
theorem transition_preserves_identity_fields_witness :
    (applyTransition sampleInstance "closed" none none 5).is_completed = false
    ∧ (applyTransition sampleInstance "closed" none none 5).created_at = 0 := by
  have h := transition_preserves_identity_fields [sampleInstance] 1 "closed"
    none none 5 sampleInstance _ _ rfl rfl
  exact ⟨h.2.2.2.1, h.2.2.2.2⟩

/-! ### Workflow definitions (`WorkflowRepository`) -/

/-- The `WorkflowType` enumeration of `app/models/workflow.py`. -/
inductive WorkflowType where
  | sales
  | support
  | development
  | marketing
  | operations
  deriving DecidableEq, Repr

/-- The `.value` string of an enum member. -/
def WorkflowType.value : WorkflowType → String
  | .sales => "sales"
  | .support => "support"
  | .development => "development"
  | .marketing => "marketing"
  | .operations => "operations"

/-- The enum members in declaration order (the iteration order of
`for workflow_type in WorkflowType`). -/
def WorkflowType.all : List WorkflowType :=
  [.sales, .support, .development, .marketing, .operations]

/-- `WorkflowType(workflow_type)` in the listing endpoint: parse a
string into the enumeration, `none` exactly when the constructor raises
`ValueError`. -/
def WorkflowType.ofString (s : String) : Option WorkflowType :=
  if s = "sales" then some .sales
  else if s = "support" then some .support
  else if s = "development" then some .development
  else if s = "marketing" then some .marketing
  else if s = "operations" then some .operations
  else none

theorem WorkflowType.ofString_value (t : WorkflowType) :
    WorkflowType.ofString t.value = some t := by
  cases t <;> rfl

/-- A row of the `workflows` table (`app/models/workflow.py`, class
`Workflow`). -/
structure Workflow (V : Type) where
  id : Nat
  name : String
  description : Option String
  type : WorkflowType
  stages : Dict V
  rules : Option (Dict V)
  is_active : Bool
  created_at : Nat
  updated_at : Nat
  deriving DecidableEq, Repr

/-- `WorkflowRepository.get`: first row with the given id. -/
def wf_get {V : Type} (db : List (Workflow V)) (id : Nat) :
    Option (Workflow V) :=
  db.find? (fun w => w.id == id)

/-- `ORDER BY created_at DESC` over workflow rows. -/
def sortWorkflowsDesc {V : Type} (l : List (Workflow V)) :
    List (Workflow V) :=
  List.insertionSort (fun a b => b.created_at ≤ a.created_at) l

/-- `WorkflowRepository.get_by_type`: rows of the given type that are
active, newest first. -/
def get_by_type {V : Type} (db : List (Workflow V)) (t : WorkflowType) :
    List (Workflow V) :=
  sortWorkflowsDesc (db.filter (fun w => decide (w.type = t) && w.is_active))

/-- `WorkflowRepository.get_active_workflows`: active rows, newest
first. -/
def get_active_workflows {V : Type} (db : List (Workflow V)) :
    List (Workflow V) :=
  sortWorkflowsDesc (db.filter (fun w => w.is_active))

/-- The validated body of `POST /workflows` (`schemas/workflow.py`,
class `WorkflowCreate`). -/
structure WorkflowCreate (V : Type) where
  name : String
  description : Option String
  type : WorkflowType
  stages : Dict V
  rules : Option (Dict V)
  is_active : Bool
  deriving DecidableEq, Repr

/-- `WorkflowRepository.create_workflow`: insert a row carrying the
creation data plus the generated id and timestamps; returns the row and
the grown table. -/
def create_workflow {V : Type} (db : List (Workflow V))
    (data : WorkflowCreate V) (new_id now : Nat) :
    Workflow V × List (Workflow V) :=
  let w : Workflow V :=
    { id := new_id
      name := data.name
      description := data.description
      type := data.type
      stages := data.stages
      rules := data.rules
      is_active := data.is_active
      created_at := now
      updated_at := now }
  (w, db ++ [w])

/-- The filter selection of `GET /workflows` (endpoint `get_workflows`,
before pagination): a truthy `workflow_type` is parsed — 400 on parse
failure — and listed by type, otherwise the active listing is returned;
Python truthiness makes the empty string behave like an absent
parameter. -/
def get_workflows_sel {V : Type} (db : List (Workflow V))
    (workflow_type : Option String) :
    Except ApiError (List (Workflow V)) :=
  match workflow_type with
  | some s =>
      if s = "" then .ok (get_active_workflows db)
      else
        match WorkflowType.ofString s with
        | some t => .ok (get_by_type db t)
        | none => .error (.badRequest "Invalid workflow type")
  | none => .ok (get_active_workflows db)

/-- The dictionary returned by
`WorkflowRepository.get_workflow_statistics`. -/
structure WorkflowStatsRepo (V : Type) where
  total_workflows : Nat
  active_workflows : Nat
  workflows_by_type : List (String × Nat)
  recent_workflows : List (Workflow V)
  deriving DecidableEq, Repr

/-- `WorkflowRepository.get_workflow_statistics`: total count, active
count, a count per enumeration member, and the five most recently
created active rows. -/
def get_workflow_statistics {V : Type} (db : List (Workflow V)) :
    WorkflowStatsRepo V :=
  { total_workflows := db.length
    active_workflows := (db.filter (fun w => w.is_active)).length
    workflows_by_type := WorkflowType.all.map (fun t =>
      (t.value, (db.filter (fun w => decide (w.type = t))).length))
    recent_workflows := (get_active_workflows db).take 5 }

/-- The response of `GET /workflows/statistics/overview`
(`schemas/workflow.py`, class `WorkflowStatistics`). -/
structure WorkflowStatistics (V : Type) where
  total_workflows : Nat
  active_workflows : Nat
  completed_workflows : Nat
  workflows_by_type : List (String × Nat)
  workflows_by_stage : List (String × Nat)
  recent_workflows : List (Workflow V)
  deriving DecidableEq, Repr

/-- The statistics endpoint of the API layer: the repository statistics
plus the hard-coded `completed_workflows = 0` and empty
`workflows_by_stage`. -/
def get_workflow_statistics_api {V : Type} (db : List (Workflow V)) :
    WorkflowStatistics V :=
  let stats := get_workflow_statistics db
  { total_workflows := stats.total_workflows
    active_workflows := stats.active_workflows
    completed_workflows := 0
    workflows_by_type := stats.workflows_by_type
    workflows_by_stage := []
    recent_workflows := stats.recent_workflows }

/-- A project row, as far as instance creation needs it
(`ProjectRepository.get` is only consulted for existence by id). -/
structure Project where
  id : Nat
  deriving DecidableEq, Repr

/-- `ProjectRepository.get`: first row with the given id. -/
def project_get (db : List Project) (id : Nat) : Option Project :=
  db.find? (fun p => p.id == id)

/-- The validated body of `POST /workflows/instances`
(`schemas/workflow.py`, class `WorkflowInstanceCreate`). -/
structure WorkflowInstanceCreate (V : Type) where
  workflow_id : Nat
  project_id : Nat
  current_stage : String
  stage_data : Option (Dict V)
  history : Option (List (TransitionRecord V))
  is_completed : Bool
  deriving DecidableEq, Repr

/-- The instance-creation endpoint `create_workflow_instance`: validate
that the workflow and the project ids resolve — 404 naming the missing
one — then insert the instance row.  The second component is the
instance table after the call, unchanged on error. -/
def create_workflow_instance_api {V : Type} (wdb : List (Workflow V))
    (pdb : List Project) (idb : List (WorkflowInstance V))
    (data : WorkflowInstanceCreate V) (new_id now : Nat) :
    Except ApiError (WorkflowInstance V) × List (WorkflowInstance V) :=
  match wf_get wdb data.workflow_id with
  | none => (.error (.notFound "Workflow not found"), idb)
  | some _ =>
      match project_get pdb data.project_id with
      | none => (.error (.notFound "Project not found"), idb)
      | some _ =>
          let inst : WorkflowInstance V :=
            { id := new_id
              workflow_id := data.workflow_id
              project_id := data.project_id
              current_stage := data.current_stage
              stage_data := data.stage_data
              history := data.history
              is_completed := data.is_completed
              created_at := now
              updated_at := now }
          (.ok inst, idb ++ [inst])

/-- Claim C6: instance creation validates both foreign references before
persisting anything: an unresolved `workflow_id` fails 404 naming the
workflow, a resolved workflow with an unresolved `project_id` fails 404
naming the project, and in both failure cases the instance table is
returned unchanged. -/
theorem create_instance_validates_references {V : Type}
    (wdb : List (Workflow V)) (pdb : List Project)
    (idb : List (WorkflowInstance V)) (data : WorkflowInstanceCreate V)
    (new_id now : Nat) :
    (wf_get wdb data.workflow_id = none →
      create_workflow_instance_api wdb pdb idb data new_id now
        = (.error (.notFound "Workflow not found"), idb))
    ∧ (∀ w, wf_get wdb data.workflow_id = some w →
        project_get pdb data.project_id = none →
        create_workflow_instance_api wdb pdb idb data new_id now
          = (.error (.notFound "Project not found"), idb)) := by
  constructor
  · intro h
    unfold create_workflow_instance_api
    rw [h]
  · intro w hw hp
    unfold create_workflow_instance_api
    rw [hw, hp]

/-- Concrete instantiation of C6: creation against an empty workflow
table fails naming the workflow and persists nothing. -/
theorem create_instance_validates_references_witness :
    create_workflow_instance_api ([] : List (Workflow Int)) [] []
        { workflow_id := 1, project_id := 1, current_stage := "lead"
          stage_data := none, history := none, is_completed := false } 1 0
      = (.error (.notFound "Workflow not found"), []) :=
  (create_instance_validates_references [] [] [] _ 1 0).1 rfl

theorem wf_get_eq_none {V : Type} (db : List (Workflow V)) (j : Nat)
    (h : ∀ w ∈ db, w.id ≠ j) : wf_get db j = none := by
  rw [wf_get, List.find?_eq_none]
  intro w hw
  simpa using h w hw

/-- Claim C9: `WorkflowRepository.get` is read-only and idempotent:
after `create_workflow` with a fresh id the new row is retrievable and
its fields are exactly the creation input plus the generated id and
timestamps; a repeated `get` without intervening mutation returns an
identical result; `get` of an id bound by no row is `none`. -/
theorem get_after_create_workflow {V : Type}
    (db : List (Workflow V)) (data : WorkflowCreate V) (new_id now : Nat)
    (hfresh : ∀ w ∈ db, w.id ≠ new_id) :
    wf_get (create_workflow db data new_id now).2 new_id
        = some (create_workflow db data new_id now).1
    ∧ (create_workflow db data new_id now).1.name = data.name
    ∧ (create_workflow db data new_id now).1.description = data.description
    ∧ (create_workflow db data new_id now).1.type = data.type
    ∧ (create_workflow db data new_id now).1.stages = data.stages
    ∧ (create_workflow db data new_id now).1.rules = data.rules
    ∧ (create_workflow db data new_id now).1.is_active = data.is_active
    ∧ (create_workflow db data new_id now).1.id = new_id
    ∧ (create_workflow db data new_id now).1.created_at = now
    ∧ (create_workflow db data new_id now).1.updated_at = now
    ∧ wf_get (create_workflow db data new_id now).2 new_id
        = wf_get (create_workflow db data new_id now).2 new_id
    ∧ ∀ (db₀ : List (Workflow V)) (j : Nat), (∀ w ∈ db₀, w.id ≠ j) →
        wf_get db₀ j = none := by
  refine ⟨?_, rfl, rfl, rfl, rfl, rfl, rfl, rfl, rfl, rfl, rfl,
    fun db₀ j h => wf_get_eq_none db₀ j h⟩
  show wf_get (db ++ [(create_workflow db data new_id now).1]) new_id = _
  rw [wf_get, List.find?_append]
  have h1 : db.find? (fun w => w.id == new_id) = none :=
    wf_get_eq_none db new_id hfresh
  rw [h1, Option.none_or, List.find?_cons]
  simp [create_workflow]

/-- Creation data used by the C9 witness. -/
def sampleWorkflowCreate : WorkflowCreate Int :=
  { name := "Sales Pipeline", description := none, type := .sales
    stages := [("lead", 0), ("closed_won", 0)], rules := none
    is_active := true }

/-- Concrete instantiation of C9: the row created in an empty table is
retrieved by its generated id. -/
theorem get_after_create_workflow_witness :
    wf_get (create_workflow ([] : List (Workflow Int))
        sampleWorkflowCreate 1 2).2 1
      = some (create_workflow ([] : List (Workflow Int))
        sampleWorkflowCreate 1 2).1 :=
  (get_after_create_workflow [] sampleWorkflowCreate 1 2
    (fun w hw => absurd hw (List.not_mem_nil w))).1

/-- Claim C7 (amended): the type-filtered listing returns exactly the
active workflows of the requested type in descending creation-time
order — never an inactive workflow even when its type matches — and a
NON-EMPTY type value outside the enumeration fails with a validation
error; the endpoint treats an empty type value like an absent filter
(Python truthiness) and returns the active listing instead of failing.
-/
theorem get_workflows_by_type_exact {V : Type}
    (db : List (Workflow V)) (t : WorkflowType) (s : String)
    (hs : s ≠ "") (hbad : WorkflowType.ofString s = none) :
    (∃ ws, get_workflows_sel db (some t.value) = .ok ws
      ∧ (∀ w, w ∈ ws ↔ (w ∈ db ∧ w.type = t ∧ w.is_active = true))
      ∧ ws.Pairwise (fun a b => b.created_at ≤ a.created_at))
    ∧ get_workflows_sel db (some s)
        = .error (.badRequest "Invalid workflow type")
    ∧ get_workflows_sel db (some "") = .ok (get_active_workflows db) := by
  refine ⟨?_, ?_, rfl⟩
  · have hne : ¬t.value = "" := by cases t <;> decide
    refine ⟨get_by_type db t, ?_, ?_, ?_⟩
    · show (if t.value = "" then _ else _) = _
      rw [if_neg hne, WorkflowType.ofString_value]
    · intro w
      simp [get_by_type, sortWorkflowsDesc, List.mem_filter,
        List.mem_insertionSort, Bool.and_eq_true, and_assoc]
    · haveI : IsTotal (Workflow V) (fun a b => b.created_at ≤ a.created_at) :=
        ⟨fun a b => Nat.le_total b.created_at a.created_at⟩
      haveI : IsTrans (Workflow V) (fun a b => b.created_at ≤ a.created_at) :=
        ⟨fun _ _ _ h₁ h₂ => Nat.le_trans h₂ h₁⟩
      exact List.sorted_insertionSort _ _
  · show (if s = "" then _ else _) = _
    rw [if_neg hs, hbad]

/-- A workflow row used by the C7 and C8 witnesses: active, of type
`support`. -/
def sampleWorkflow : Workflow Int :=
  { id := 1, name := "Support Flow", description := none, type := .support
    stages := [("lead", 0)], rules := none, is_active := true
    created_at := 0, updated_at := 0 }

/-- Counterexample to C7 as frozen: the empty string is a type value
outside the enumeration, yet the endpoint answers it with the active
listing instead of a validation error. -/
theorem get_workflows_empty_type_no_error :
    WorkflowType.ofString "" = none
    ∧ get_workflows_sel [sampleWorkflow] (some "") = .ok [sampleWorkflow] :=
  ⟨rfl, rfl⟩

/-- Concrete instantiation of the amended C7: a non-empty invalid type
value is rejected. -/
theorem get_workflows_by_type_exact_witness :
    get_workflows_sel [sampleWorkflow] (some "bogus")
      = .error (.badRequest "Invalid workflow type") :=
  (get_workflows_by_type_exact [sampleWorkflow] WorkflowType.support "bogus"
    (by decide) rfl).2.1

/-- Claim C8: the statistics overview reports the total workflow count,
the active count, one per-type count per enumeration member (zero when
no workflow of that type exists), the five most recently created active
workflows, and always `completed_workflows = 0` and an empty
`workflows_by_stage`, whatever the stored data. -/
theorem workflow_statistics_spec {V : Type} (db : List (Workflow V)) :
    (get_workflow_statistics_api db).completed_workflows = 0
    ∧ (get_workflow_statistics_api db).workflows_by_stage = []
    ∧ (get_workflow_statistics_api db).total_workflows = db.length
    ∧ (get_workflow_statistics_api db).active_workflows
        = (db.filter (fun w => w.is_active)).length
    ∧ (∀ t : WorkflowType,
        lookupKey t.value (get_workflow_statistics_api db).workflows_by_type
          = some ((db.filter (fun w => decide (w.type = t))).length))
    ∧ (get_workflow_statistics_api db).workflows_by_type.map Prod.fst
        = WorkflowType.all.map WorkflowType.value
    ∧ (get_workflow_statistics_api db).recent_workflows.length
        = min 5 (db.filter (fun w => w.is_active)).length
    ∧ (∀ w ∈ (get_workflow_statistics_api db).recent_workflows,
        w ∈ db ∧ w.is_active = true)
    ∧ (get_workflow_statistics_api db).recent_workflows.Pairwise
        (fun a b => b.created_at ≤ a.created_at)
    ∧ (∀ w ∈ db, w.is_active = true →
        w ∉ (get_workflow_statistics_api db).recent_workflows →
        ∀ r ∈ (get_workflow_statistics_api db).recent_workflows,
          w.created_at ≤ r.created_at) := by
  have hsorted : (get_active_workflows db).Pairwise
      (fun a b => b.created_at ≤ a.created_at) := by
    haveI : IsTotal (Workflow V) (fun a b => b.created_at ≤ a.created_at) :=
      ⟨fun a b => Nat.le_total b.created_at a.created_at⟩
    haveI : IsTrans (Workflow V) (fun a b => b.created_at ≤ a.created_at) :=
      ⟨fun _ _ _ h₁ h₂ => Nat.le_trans h₂ h₁⟩
    exact List.sorted_insertionSort _ _
  refine ⟨rfl, rfl, rfl, rfl, ?_, rfl, ?_, ?_, ?_, ?_⟩
  · intro t
    cases t <;> rfl
  · show ((get_active_workflows db).take 5).length = _
    rw [List.length_take]
    show min 5 (List.insertionSort _ (db.filter (fun w => w.is_active))).length
        = _
    rw [List.length_insertionSort]
  · intro w hw
    have hw' : w ∈ get_active_workflows db := List.mem_of_mem_take hw
    have := (List.mem_insertionSort _).mp hw'
    simpa using List.mem_filter.mp this
  · exact List.Pairwise.sublist (List.take_sublist 5 _) hsorted
  · intro w hwdb hact hnot r hr
    have hwL : w ∈ get_active_workflows db :=
      (List.mem_insertionSort _).mpr (List.mem_filter.mpr ⟨hwdb, hact⟩)
    have hsplit := List.take_append_drop 5 (get_active_workflows db)
    have hPw : ∀ a ∈ (get_active_workflows db).take 5,
        ∀ b ∈ (get_active_workflows db).drop 5,
          b.created_at ≤ a.created_at := by
      have hs := hsorted
      rw [← hsplit] at hs
      exact fun a ha b hb => (List.pairwise_append.mp hs).2.2 a ha b hb
    have hwdrop : w ∈ (get_active_workflows db).drop 5 := by
      rcases List.mem_append.mp
          (show w ∈ (get_active_workflows db).take 5 ++
              (get_active_workflows db).drop 5 by
            rw [hsplit]; exact hwL) with h | h
      · exact absurd h hnot
      · exact h
    exact hPw r hr w hwdrop

/-- Concrete instantiation of C8: the store holding one active support
workflow reports zero completed workflows, a zero `sales` count and a
`support` count of one. -/
theorem workflow_statistics_spec_witness :
    (get_workflow_statistics_api [sampleWorkflow]).completed_workflows = 0
    ∧ lookupKey "sales"
        (get_workflow_statistics_api [sampleWorkflow]).workflows_by_type
      = some 0
    ∧ lookupKey "support"
        (get_workflow_statistics_api [sampleWorkflow]).workflows_by_type
      = some 1 := by
  have h := workflow_statistics_spec [sampleWorkflow]
  exact ⟨h.1, (h.2.2.2.2.1 WorkflowType.sales).trans rfl,
    (h.2.2.2.2.1 WorkflowType.support).trans rfl⟩
